import Mathlib

/-!
# EasyGo Advisor — booking-submission pipeline, shallow embedding

This file embeds the booking-submission pipeline of the EasyGo_Advisor
repository in Lean 4 and proves the specification claims about it.

The embedded code:
* `src/server/index.js` — the `POST /api/book-consultation` handler
  (decode, required-field check, email-format check, date-policy check,
  conflict check, insert, notification step);
* `src/server/bookingService.js` — `findOneBooking` / `insertBooking`
  over the record store, modelled as a list of stored bookings;
* the client `validateForm` and `handleSubmit` (encode) functions of the
  React application (`src/src/App.js` and its variants).

External runtime facilities that are not repository code — the CryptoJS
AES cipher, `JSON.stringify`/`JSON.parse`, the JavaScript `Date` parser,
the wall clock, the mail transport, and the environment variables — are
parameters of an `Env` record.  Claims about them are stated with the
library contracts (for example the AES round trip) as hypotheses.
Record-store operations are modelled as always succeeding; the claims
below do not concern store failures.

JavaScript strings are modelled as Lean `String`s; a missing or empty
field is the empty string (both are falsy under the `!field` checks the
server performs).  A JavaScript `Date` value is modelled as a calendar
day index together with a time-of-day; `setHours(0,0,0,0)` zeroes the
time-of-day component.
-/

namespace EasyGo

/-- A JavaScript `Date` value: local calendar day index plus
milliseconds within the day.  `Invalid Date` is `Option.none` at the
parser. -/
structure DateTime where
  day : Int
  time : Nat
deriving DecidableEq

/-- JavaScript `setHours(0, 0, 0, 0)`: zero the time-of-day component. -/
def zeroHours (d : DateTime) : DateTime := ⟨d.day, 0⟩

/-- JavaScript `<` on `Date` values compares the underlying timestamps:
lexicographic on (day, time within day). -/
def dtLt (a b : DateTime) : Bool :=
  a.day < b.day || (a.day = b.day && a.time < b.time)

/-- The booking form payload (`formData`).  A missing field is
modelled as the empty string. -/
structure Payload where
  name : String
  email : String
  phone : String
  state : String
  service : String
  preferredDate : String
  message : String
  englishLevel : String
  age : String
  education : String
  experience : String
  visaType : String
deriving DecidableEq

/-- A persisted booking record (the mongoose `Booking` document, minus
the storage-assigned id and timestamps, which no claim concerns). -/
structure StoredBooking where
  name : String
  email : String
  phone : String
  state : String
  service : String
  preferredDate : String
  message : String
  englishLevel : String
  age : String
  education : String
  experience : String
  visaType : String
deriving DecidableEq

/-- The characters matched by `\s` in the JavaScript regexes and
stripped by `String.prototype.trim` (ASCII part). -/
def isJsSpace (c : Char) : Bool :=
  c = ' ' || c = '\t' || c = '\n' || c = '\r' || c = '\x0b' || c = '\x0c'

/-- JavaScript `String.prototype.trim()`: drop leading and trailing whitespace. -/
def jsTrim (s : String) : String :=
  ⟨((s.toList.dropWhile isJsSpace).reverse.dropWhile isJsSpace).reverse⟩

/-- JavaScript `String.prototype.toLowerCase()` (ASCII part). -/
def jsLower (s : String) : String := ⟨s.toList.map Char.toLower⟩

/-- Positions `1 .. length-2` of the list contain a `'.'`: the
`[^\s@]+\.[^\s@]+` tail of the email regex admits some split there. -/
def hasInteriorDot (l : List Char) : Bool :=
  ((l.drop 1).dropLast).contains '.'

/-- The email regex `^[^\s@]+@[^\s@]+\.[^\s@]+$` shared by client and
server: no whitespace, exactly one `@` not at the start, and a dot at
an interior position after the `@`. -/
def emailRegexTest (s : String) : Bool :=
  let l := s.toList
  l.count '@' = 1 &&
  l.all (fun c => !(isJsSpace c)) &&
  decide (0 < l.indexOf '@') &&
  hasInteriorDot (l.drop (l.indexOf '@' + 1))

/-- The client name regex `^[a-zA-Z\s]{2,50}$`. -/
def nameRegexTest (s : String) : Bool :=
  2 ≤ s.length && s.length ≤ 50 &&
  s.toList.all (fun c => c.isAlpha || isJsSpace c)

/-- The client phone regex `^[\d\s\-\(\)\+]{10,15}$`. -/
def phoneRegexTest (s : String) : Bool :=
  10 ≤ s.length && s.length ≤ 15 &&
  s.toList.all (fun c =>
    c.isDigit || isJsSpace c || c = '-' || c = '(' || c = ')' || c = '+')

/-- The wire envelope: either `{ encrypted: <ciphertext> }` or the
plain payload object. -/
inductive Envelope where
  | encrypted (ciphertext : String)
  | plain (payload : Payload)
deriving DecidableEq

/-- The handler's JSON reply: `{success: true, message?, warning?}` on
acceptance, or `status` plus `{error}` otherwise. -/
inductive Response where
  | success (message : Option String) (warning : Option String)
  | failure (status : Nat) (error : String)
deriving DecidableEq

/-- External runtime facilities and configuration consumed by the
pipeline.  Empty string models an unset environment variable. -/
structure Env where
  /-- `process.env.SECRET_KEY` on the server. -/
  secretKeyVar : String
  /-- `process.env.REACT_APP_SECRET_KEY` on the client. -/
  clientSecretKeyVar : String
  /-- `process.env.NODE_ENV === "production"` on the client. -/
  isProduction : Bool
  /-- `process.env.EMAIL_USER`. -/
  emailUser : String
  /-- `process.env.EMAIL_PASS`. -/
  emailPass : String
  /-- `CryptoJS.AES.encrypt(plaintext, key).toString()`. -/
  aesEncrypt : String → String → String
  /-- `CryptoJS.AES.decrypt(ciphertext, key).toString(Utf8)`; the empty
  string models a failed decryption. -/
  aesDecrypt : String → String → String
  /-- `JSON.stringify` on a payload object. -/
  jsonStringify : Payload → String
  /-- `JSON.parse` of a payload; `none` models a parse exception. -/
  jsonParse : String → Option Payload
  /-- `new Date(s)`; `none` models `Invalid Date`. -/
  jsParseDate : String → Option DateTime
  /-- `new Date()`: the current clock. -/
  now : DateTime
  /-- Whether `transporter.sendMail(userMailOptions)` succeeds. -/
  userMailOk : Bool
  /-- Whether `transporter.sendMail(adminMailOptions)` succeeds. -/
  adminMailOk : Bool

/-- Server key: `process.env.SECRET_KEY || "EasyGoAdvisor@1974"`. -/
def serverSecretKey (env : Env) : String :=
  if env.secretKeyVar = "" then "EasyGoAdvisor@1974" else env.secretKeyVar

/-- Client key: `process.env.REACT_APP_SECRET_KEY || "EasyGoAdvisor@1974"`. -/
def clientSecretKey (env : Env) : String :=
  if env.clientSecretKeyVar = "" then "EasyGoAdvisor@1974"
  else env.clientSecretKeyVar

/-- The payload obtained by destructuring an object with none of the
form fields (every field `undefined`, modelled as empty). -/
def emptyPayload : Payload := ⟨"", "", "", "", "", "", "", "", "", "", "", ""⟩

/-- Step 1 of the handler: decrypt/parse the request body.  A falsy
`req.body.encrypted` routes the raw body through unchanged, which for a
`{encrypted: ""}` body leaves every destructured form field
`undefined`. -/
def decodeStep (env : Env) (body : Envelope) : Except (Nat × String) Payload :=
  match body with
  | .encrypted c =>
    if c = "" then .ok emptyPayload
    else if serverSecretKey env = "" then
      .error (500, "Server configuration error: encryption key missing.")
    else
      let decryptedString := env.aesDecrypt c (serverSecretKey env)
      if decryptedString = "" then
        .error (400, "Invalid encrypted data. Decryption failed.")
      else
        match env.jsonParse decryptedString with
        | some p => .ok p
        | none => .error (400, "Invalid data format. Please try again.")
  | .plain p => .ok p

/-- The server's required-field check
`if (!name || !email || ... || !visaType)` (`message` is optional). -/
def requiredFieldsPresent (p : Payload) : Bool :=
  p.name ≠ "" && p.email ≠ "" && p.phone ≠ "" && p.state ≠ "" &&
  p.service ≠ "" && p.preferredDate ≠ "" && p.englishLevel ≠ "" &&
  p.age ≠ "" && p.education ≠ "" && p.experience ≠ "" && p.visaType ≠ ""

/-- The server's date-policy check: parse `preferredDate`, zero the
time on both sides, and reject strictly-past dates. -/
def dateCheck (env : Env) (preferredDate : String) : Option (Nat × String) :=
  match env.jsParseDate preferredDate with
  | none => some (400, "Invalid date format.")
  | some bookingDate =>
    if dtLt (zeroHours bookingDate) (zeroHours env.now) then
      some (400, "Cannot book a consultation in the past.")
    else none

/-- Step 2 of the handler: required fields, email format, date policy,
in the server's order. -/
def validateSteps (env : Env) (p : Payload) : Option (Nat × String) :=
  if !requiredFieldsPresent p then
    some (400, "Missing required fields. Please fill in all required fields.")
  else if !emailRegexTest (jsTrim p.email) then
    some (400, "Invalid email format.")
  else dateCheck env p.preferredDate

/-- The store query `findOneBooking({ preferredDate, email })`: first
stored record matching both fields by exact string equality (Mongo
`findOne`). -/
def findOneBooking (store : List StoredBooking) (preferredDate email : String) :
    Option StoredBooking :=
  store.find? (fun b => b.preferredDate = preferredDate && b.email = email)

/-- The record the handler passes to `insertBooking`: trimmed fields,
lowercased-then-trimmed email, `message ? message.trim() : ''`. -/
def mkStored (p : Payload) : StoredBooking where
  name := jsTrim p.name
  email := jsTrim (jsLower p.email)
  phone := jsTrim p.phone
  state := jsTrim p.state
  service := p.service
  preferredDate := p.preferredDate
  message := if p.message = "" then "" else jsTrim p.message
  englishLevel := jsTrim p.englishLevel
  age := jsTrim p.age
  education := jsTrim p.education
  experience := jsTrim p.experience
  visaType := jsTrim p.visaType

/-- Outcome of one handler run: the HTTP reply, the record store after
the run, how many store queries ran, and how many `sendMail` calls were
attempted. -/
structure SubmitResult where
  response : Response
  store : List StoredBooking
  queries : Nat
  mailsAttempted : Nat
deriving DecidableEq

/-- The `POST /api/book-consultation` handler of `src/server/index.js`:
decode, validate, conflict check, insert, then best-effort emails.  The
first `sendMail` failure jumps to the catch block, so the second send
is attempted only when the first succeeds; either way the catch returns
`success: true` with a warning. -/
def submit (env : Env) (store : List StoredBooking) (body : Envelope) :
    SubmitResult :=
  match decodeStep env body with
  | .error (st, msg) => ⟨.failure st msg, store, 0, 0⟩
  | .ok p =>
    match validateSteps env p with
    | some (st, msg) => ⟨.failure st msg, store, 0, 0⟩
    | none =>
      match findOneBooking store p.preferredDate (jsLower p.email) with
      | some _ =>
        ⟨.failure 409
          "You have already booked a consultation for this date with this email.",
          store, 1, 0⟩
      | none =>
        let newStore := store ++ [mkStored p]
        if env.emailUser = "" || env.emailPass = "" then
          ⟨.success
            (some "Booking saved successfully. Email notifications are disabled.")
            none, newStore, 1, 0⟩
        else if env.userMailOk && env.adminMailOk then
          ⟨.success none none, newStore, 1, 2⟩
        else
          ⟨.success none
            (some "Booking saved successfully, but email notifications failed. Please contact us directly if needed."),
            newStore, 1, if env.userMailOk then 2 else 1⟩

/-- A sequence of submissions run to completion one after the other,
each against the store the previous one left behind. -/
def submitSeq (store : List StoredBooking) :
    List (Env × Envelope) → List StoredBooking
  | [] => store
  | (env, body) :: rest => submitSeq (submit env store body).store rest

/-- No two stored bookings share the same `(email, preferredDate)`
string pair. -/
def noDupPairs : List StoredBooking → Bool
  | [] => true
  | b :: rest =>
    rest.all (fun c => !(c.email = b.email && c.preferredDate = b.preferredDate)) &&
    noDupPairs rest

/-- The field-keyed error object returned by the client `validateForm`
(note: it has no `state` entry — the client never validates `state`). -/
structure FormErrors where
  name : Option String
  email : Option String
  phone : Option String
  service : Option String
  englishLevel : Option String
  age : Option String
  education : Option String
  experience : Option String
  visaType : Option String
  preferredDate : Option String
  message : Option String
deriving DecidableEq

/-- The client `validateForm` of `src/src/App.js` (current revision):
name/email/phone format rules, presence of service and the eligibility
fields, the date-only future rule, and the 500-character message cap.
An unparseable non-empty date yields no error: in JavaScript the
`NaN < today` comparison is false. -/
def validateForm (env : Env) (data : Payload) : FormErrors where
  name :=
    if jsTrim data.name = "" then some "Name is required"
    else if !nameRegexTest (jsTrim data.name) then
      some "Name must contain only letters and spaces (2-50 characters)"
    else none
  email :=
    if jsTrim data.email = "" then some "Email is required"
    else if !emailRegexTest (jsTrim data.email) then
      some "Please enter a valid email address"
    else none
  phone :=
    if jsTrim data.phone = "" then some "Phone number is required"
    else if !phoneRegexTest (jsTrim data.phone) then
      some "Please enter a valid phone number (10-15 digits)"
    else none
  service := if data.service = "" then some "Please select a service" else none
  englishLevel :=
    if data.englishLevel = "" then some "English level is required" else none
  age := if data.age = "" then some "Age is required" else none
  education := if data.education = "" then some "Education is required" else none
  experience :=
    if data.experience = "" then some "Experience is required" else none
  visaType := if data.visaType = "" then some "Visa type is required" else none
  preferredDate :=
    if data.preferredDate = "" then some "Please select a preferred date"
    else
      match env.jsParseDate data.preferredDate with
      | none => none
      | some selectedDate =>
        if dtLt (zeroHours selectedDate) (zeroHours env.now) then
          some "Please select future date"
        else none
  message :=
    if data.message ≠ "" && 500 < data.message.length then
      some "Message must be less than 500 characters"
    else none

/-- The client `handleSubmit` encode step: in production, AES-encrypt
the JSON serialization under the client key and wrap it as
`{ encrypted: ... }`; in development, send the payload through
unchanged. -/
def clientEncode (env : Env) (formData : Payload) : Envelope :=
  if env.isProduction then
    .encrypted (env.aesEncrypt (env.jsonStringify formData) (clientSecretKey env))
  else
    .plain formData


/-! ## Concrete fixtures used by witnesses and counterexamples -/

/-- A concrete instantiation of the JavaScript date parser knowing the
three date strings the fixtures use. -/
def witParseDate (s : String) : Option DateTime :=
  if s = "2026-12-01" then some ⟨20788, 300⟩
  else if s = "2026-11-30" then some ⟨20787, 42⟩
  else if s = "2026-12-01T00:00:00" then some ⟨20788, 0⟩
  else none

/-- A concrete environment: mail credentials configured, both sends
succeeding, a toy reversible cipher, clock on day 20788. -/
def witEnv : Env where
  secretKeyVar := ""
  clientSecretKeyVar := ""
  isProduction := false
  emailUser := "mail@easygo.com"
  emailPass := "pw"
  aesEncrypt := fun s _ => s ++ "#c"
  aesDecrypt := fun s _ => if s = "json#c" then "json" else ""
  jsonStringify := fun _ => "json"
  jsonParse := fun _ => none
  jsParseDate := witParseDate
  now := ⟨20788, 777⟩
  userMailOk := true
  adminMailOk := true

/-- A fully valid form submission for day 20788. -/
def p1 : Payload where
  name := "Jane Doe"
  email := "jane@x.com"
  phone := "1234567890"
  state := "Gujarat"
  service := "visa-processing"
  preferredDate := "2026-12-01"
  message := ""
  englishLevel := "Good (7 Band)"
  age := "18-35 years"
  education := "Graduation"
  experience := "1 year"
  visaType := "Work Permit"

/-- Payload `p1` with a leading space in the email. -/
def p1ws : Payload := { p1 with email := " jane@x.com" }

/-- Payload `p1` with the same calendar date written as a different string. -/
def p1alt : Payload := { p1 with preferredDate := "2026-12-01T00:00:00" }

/-- C5 witness: a concrete cipher/serializer pair satisfying the
contracts on a concrete payload. -/
def witEnvCodec : Env :=
  { witEnv with
    jsonStringify := fun _ => "json"
    jsonParse := fun s => if s = "json" then some p1 else none }

/-- A 501-character message, over the client's 500-character cap. -/
def longMsg : String := ⟨List.replicate 501 'a'⟩

/-- A payload the client rejects on three format rules (name pattern,
phone pattern, message length) while every server check passes. -/
def p7 : Payload :=
  { p1 with name := "J4ne", phone := "123456789012345678", message := longMsg }

/-- A stored booking whose email retains uppercase letters (reachable
only outside the pipeline, but the claim quantifies over every store
state). -/
def storedU : StoredBooking := { mkStored p1 with email := "JANE@x.com" }


/-! ## Helper lemmas -/

/-- The server key falls back to a literal, so it is never empty. -/
lemma serverSecretKey_ne_empty (env : Env) : serverSecretKey env ≠ "" := by
  unfold serverSecretKey
  split <;> simp_all

/-- Every decode failure carries status 400: the 500 branch is guarded
by the key being empty, which the fallback rules out. -/
lemma decodeStep_error_status (env : Env) (body : Envelope) (st : Nat) (msg : String)
    (h : decodeStep env body = .error (st, msg)) : st = 400 := by
  unfold decodeStep at h
  cases body with
  | plain p => simp at h
  | encrypted c =>
    by_cases hc : c = "" <;> simp [hc] at h
    have hk := serverSecretKey_ne_empty env
    simp [hk] at h
    by_cases hd : env.aesDecrypt c (serverSecretKey env) = "" <;> simp [hd] at h
    · exact h.1.symm
    · cases hp : env.jsonParse (env.aesDecrypt c (serverSecretKey env)) <;> simp [hp] at h
      exact h.1.symm

/-- Every validation failure carries status 400. -/
lemma validateSteps_error_status (env : Env) (p : Payload) (st : Nat) (msg : String)
    (h : validateSteps env p = some (st, msg)) : st = 400 := by
  unfold validateSteps at h
  by_cases hr : requiredFieldsPresent p = true <;> simp [hr] at h
  · by_cases he : emailRegexTest (jsTrim p.email) = true <;> simp [he] at h
    · unfold dateCheck at h
      cases hp : env.jsParseDate p.preferredDate <;> simp [hp] at h
      · exact h.1.symm
      · exact h.2.1.symm
    · exact h.1.symm
  · exact h.1.symm


/-- C1: if decode, validation, date and conflict checks pass and the
insert succeeds, a failure of both notification emails still yields a
success response carrying the warning annotation, and the inserted
booking remains in the record store. -/
theorem submit_success_despite_mail_failure
    (env : Env) (store : List StoredBooking) (body : Envelope) (p : Payload)
    (hdec : decodeStep env body = .ok p)
    (hval : validateSteps env p = none)
    (hconf : findOneBooking store p.preferredDate (jsLower p.email) = none)
    (huser : env.emailUser ≠ "") (hpass : env.emailPass ≠ "")
    (hm1 : env.userMailOk = false) (hm2 : env.adminMailOk = false) :
    (submit env store body).response =
      .success none (some "Booking saved successfully, but email notifications failed. Please contact us directly if needed.") ∧
    (submit env store body).store = store ++ [mkStored p] ∧
    mkStored p ∈ (submit env store body).store := by
  simp [submit, hdec, hval, hconf, huser, hpass, hm1, hm2]

/-- C1 witness: a concrete run with both sends failing. -/
theorem submit_success_despite_mail_failure_witness :
    (submit { witEnv with userMailOk := false, adminMailOk := false } [] (.plain p1)).response =
      .success none (some "Booking saved successfully, but email notifications failed. Please contact us directly if needed.") ∧
    (submit { witEnv with userMailOk := false, adminMailOk := false } [] (.plain p1)).store = [] ++ [mkStored p1] ∧
    mkStored p1 ∈ (submit { witEnv with userMailOk := false, adminMailOk := false } [] (.plain p1)).store :=
  submit_success_despite_mail_failure
    { witEnv with userMailOk := false, adminMailOk := false } [] (.plain p1) p1
    rfl (by decide) (by decide) (by decide) (by decide) rfl rfl

/-- C9: with mail credentials absent, a successfully persisted booking
attempts no email send and the response is a success annotated that
notifications are disabled. -/
theorem submit_success_notifications_disabled
    (env : Env) (store : List StoredBooking) (body : Envelope) (p : Payload)
    (hdec : decodeStep env body = .ok p)
    (hval : validateSteps env p = none)
    (hconf : findOneBooking store p.preferredDate (jsLower p.email) = none)
    (hcred : env.emailUser = "" ∨ env.emailPass = "") :
    submit env store body =
      ⟨.success (some "Booking saved successfully. Email notifications are disabled.") none,
       store ++ [mkStored p], 1, 0⟩ := by
  rcases hcred with h | h <;> simp [submit, hdec, hval, hconf, h]

/-- C9 witness: a concrete run with `EMAIL_USER` unset. -/
theorem submit_success_notifications_disabled_witness :
    submit { witEnv with emailUser := "" } [] (.plain p1) =
      ⟨.success (some "Booking saved successfully. Email notifications are disabled.") none,
       [] ++ [mkStored p1], 1, 0⟩ :=
  submit_success_notifications_disabled { witEnv with emailUser := "" } [] (.plain p1) p1
    rfl (by decide) (by decide) (Or.inl rfl)

/-- C4: a submission that fails decoding, or whose payload fails the
required-field, email-format or date checks, is rejected with a 400
and touches the record store in no way: no query runs and the store is
unchanged. -/
theorem rejected_before_store
    (env : Env) (store : List StoredBooking) (body : Envelope)
    (h : (∃ e, decodeStep env body = .error e) ∨
         (∃ p r, decodeStep env body = .ok p ∧ validateSteps env p = some r)) :
    (submit env store body).store = store ∧
    (submit env store body).queries = 0 ∧
    ∃ msg, (submit env store body).response = .failure 400 msg := by
  rcases h with ⟨⟨st, msg⟩, he⟩ | ⟨p, ⟨st, msg⟩, hok, hv⟩
  · have h400 := decodeStep_error_status env body st msg he
    subst h400
    simp [submit, he]
  · have h400 := validateSteps_error_status env p st msg hv
    subst h400
    simp [submit, hok, hv]

/-- C4 witness: a concrete garbage ciphertext envelope is rejected
with a 400 before any store access. -/
theorem rejected_before_store_witness :
    (submit witEnv [mkStored p1] (.encrypted "garbage")).store = [mkStored p1] ∧
    (submit witEnv [mkStored p1] (.encrypted "garbage")).queries = 0 ∧
    ∃ msg, (submit witEnv [mkStored p1] (.encrypted "garbage")).response = .failure 400 msg :=
  rejected_before_store witEnv [mkStored p1] (.encrypted "garbage")
    (Or.inl ⟨(400, "Invalid encrypted data. Decryption failed."), by rfl⟩)


/-- C5: under the library contracts for `JSON` and the AES cipher —
parse inverts stringify, decrypt under the server key inverts encrypt
under the client key, the serialized payload and the ciphertext are
non-empty — the server decode step recovers exactly the payload the
client encoded, in production mode (encrypted envelope) and in
development mode (plain passthrough) alike. -/
theorem codec_roundtrip
    (env : Env) (p : Payload)
    (hjson : env.jsonParse (env.jsonStringify p) = some p)
    (hs : env.jsonStringify p ≠ "")
    (haes : env.aesDecrypt (env.aesEncrypt (env.jsonStringify p) (clientSecretKey env))
              (serverSecretKey env) = env.jsonStringify p)
    (hct : env.aesEncrypt (env.jsonStringify p) (clientSecretKey env) ≠ "") :
    decodeStep env (clientEncode { env with isProduction := true } p) = .ok p ∧
    decodeStep env (clientEncode { env with isProduction := false } p) = .ok p := by
  constructor
  · simp only [clientEncode, clientSecretKey, decodeStep, if_true]
    simp only [clientSecretKey] at haes hct
    simp [hct, serverSecretKey_ne_empty env, haes, hs, hjson]
  · simp [clientEncode, decodeStep]

/-- C5 witness: the round trip at the concrete payload `p1`. -/
theorem codec_roundtrip_witness :
    decodeStep witEnvCodec (clientEncode { witEnvCodec with isProduction := true } p1) = .ok p1 ∧
    decodeStep witEnvCodec (clientEncode { witEnvCodec with isProduction := false } p1) = .ok p1 :=
  codec_roundtrip witEnvCodec p1 (by rfl) (by decide) (by rfl) (by decide)

/-- C6: the server's date rule depends only on the calendar day, not
on the time-of-day of the submitted date or of the clock: a date on
yesterday's day index is rejected as past, and a date on today's or
any later day index passes. -/
theorem date_rule_day_boundary
    (env : Env) (pd : String) (d : Int) (t : Nat)
    (hparse : env.jsParseDate pd = some ⟨d, t⟩) :
    (d = env.now.day - 1 →
      dateCheck env pd = some (400, "Cannot book a consultation in the past.")) ∧
    (env.now.day ≤ d → dateCheck env pd = none) := by
  unfold dateCheck
  rw [hparse]
  dsimp only
  have hlt : dtLt (zeroHours ⟨d, t⟩) (zeroHours env.now) = decide (d < env.now.day) := by
    simp [dtLt, zeroHours]
  rw [hlt]
  constructor
  · intro hd
    rw [if_pos (by simp; omega)]
  · intro hd
    rw [if_neg (by simp; omega)]

/-- C6 witness: yesterday at 00:42 is rejected, today at 00:00:00.300
passes, both against a clock late in today. -/
theorem date_rule_day_boundary_witness :
    (dateCheck witEnv "2026-11-30" = some (400, "Cannot book a consultation in the past.")) ∧
    dateCheck witEnv "2026-12-01" = none :=
  ⟨(date_rule_day_boundary witEnv "2026-11-30" 20787 42 (by rfl)).1 (by decide),
   (date_rule_day_boundary witEnv "2026-12-01" 20788 300 (by rfl)).2 (by decide)⟩


/-- Trimming the empty string gives the empty string. -/
lemma jsTrim_empty : jsTrim "" = "" := rfl

set_option maxRecDepth 4000 in
/-- C7 counterexample: the client validator rejects `p7` for name
format, phone format and message length, yet the server accepts the
very same payload and stores it. -/
theorem client_rules_not_enforced_by_server :
    (validateForm witEnv p7).name ≠ none ∧
    (validateForm witEnv p7).phone ≠ none ∧
    (validateForm witEnv p7).message ≠ none ∧
    (submit witEnv [] (.plain p7)).response = .success none none ∧
    (submit witEnv [] (.plain p7)).store = [mkStored p7] := by decide

/-- C7 amended: the two validator copies agree on the email rule (and
required-field presence): any payload the client rejects for email is
rejected by the server with a 400 before any store access. -/
theorem server_rejects_client_email_errors
    (env : Env) (store : List StoredBooking) (p : Payload)
    (h : (validateForm env p).email ≠ none) :
    (submit env store (.plain p)).store = store ∧
    (submit env store (.plain p)).queries = 0 ∧
    ∃ msg, (submit env store (.plain p)).response = .failure 400 msg := by
  have hemail : emailRegexTest (jsTrim p.email) = false := by
    simp only [validateForm] at h
    by_cases h0 : jsTrim p.email = ""
    · rw [h0]; decide
    · simp only [h0, if_false] at h
      by_cases h1 : emailRegexTest (jsTrim p.email) = true
      · simp [h1] at h
      · simpa using h1
  have key : ∃ msg, validateSteps env p = some (400, msg) := by
    by_cases hreq : requiredFieldsPresent p = true
    · exact ⟨"Invalid email format.", by simp [validateSteps, hreq, hemail]⟩
    · exact ⟨"Missing required fields. Please fill in all required fields.",
        by simp [validateSteps, hreq]⟩
  obtain ⟨msg, hv⟩ := key
  refine ⟨?_, ?_, msg, ?_⟩ <;> simp [submit, decodeStep, hv]

/-- C7 amended witness: a concrete client-rejected email is also
rejected by the server. -/
theorem server_rejects_client_email_errors_witness :
    (submit witEnv [] (.plain { p1 with email := "not-an-email" })).store = [] ∧
    (submit witEnv [] (.plain { p1 with email := "not-an-email" })).queries = 0 ∧
    ∃ msg, (submit witEnv [] (.plain { p1 with email := "not-an-email" })).response =
      .failure 400 msg :=
  server_rejects_client_email_errors witEnv [] { p1 with email := "not-an-email" }
    (by decide)

/-- C8 counterexample: a payload missing only `state` produces a
completely empty client error map — `validateForm` has no `state` key
at all — even though the server rejects the same payload as missing a
required field. -/
theorem missing_state_unkeyed_in_client_validator :
    validateForm witEnv { p1 with state := "" } =
      ⟨none, none, none, none, none, none, none, none, none, none, none⟩ ∧
    (submit witEnv [] (.plain { p1 with state := "" })).response =
      .failure 400 "Missing required fields. Please fill in all required fields." := by
  decide

/-- C8 amended: for every required field other than `state`, a payload
with that field empty gets that field's key in the client error map;
and the server rejects a payload with any required field empty —
`state` included — with a single 400 error and no store access. -/
theorem missing_required_field_flagged
    (env : Env) (store : List StoredBooking) (p : Payload) :
    (p.name = "" → (validateForm env p).name ≠ none) ∧
    (p.email = "" → (validateForm env p).email ≠ none) ∧
    (p.phone = "" → (validateForm env p).phone ≠ none) ∧
    (p.service = "" → (validateForm env p).service ≠ none) ∧
    (p.preferredDate = "" → (validateForm env p).preferredDate ≠ none) ∧
    (p.englishLevel = "" → (validateForm env p).englishLevel ≠ none) ∧
    (p.age = "" → (validateForm env p).age ≠ none) ∧
    (p.education = "" → (validateForm env p).education ≠ none) ∧
    (p.experience = "" → (validateForm env p).experience ≠ none) ∧
    (p.visaType = "" → (validateForm env p).visaType ≠ none) ∧
    ((p.name = "" ∨ p.email = "" ∨ p.phone = "" ∨ p.state = "" ∨ p.service = "" ∨
      p.preferredDate = "" ∨ p.englishLevel = "" ∨ p.age = "" ∨ p.education = "" ∨
      p.experience = "" ∨ p.visaType = "") →
      submit env store (.plain p) =
        ⟨.failure 400 "Missing required fields. Please fill in all required fields.",
         store, 0, 0⟩) := by
  refine ⟨?_, ?_, ?_, ?_, ?_, ?_, ?_, ?_, ?_, ?_, ?_⟩ <;> intro h
  case _ => simp [validateForm, jsTrim_empty, h]
  case _ => simp [validateForm, jsTrim_empty, h]
  case _ => simp [validateForm, jsTrim_empty, h]
  case _ => simp [validateForm, h]
  case _ => simp [validateForm, h]
  case _ => simp [validateForm, h]
  case _ => simp [validateForm, h]
  case _ => simp [validateForm, h]
  case _ => simp [validateForm, h]
  case _ => simp [validateForm, h]
  case _ =>
    have hreq : requiredFieldsPresent p = false := by
      rcases h with h|h|h|h|h|h|h|h|h|h|h <;> simp [requiredFieldsPresent, h]
    simp [submit, decodeStep, validateSteps, hreq]

/-- C8 amended witness: the all-empty payload triggers every client
key and the server's missing-fields rejection. -/
theorem missing_required_field_flagged_witness :
    (validateForm witEnv emptyPayload).name ≠ none ∧
    (validateForm witEnv emptyPayload).email ≠ none ∧
    (validateForm witEnv emptyPayload).phone ≠ none ∧
    (validateForm witEnv emptyPayload).service ≠ none ∧
    (validateForm witEnv emptyPayload).preferredDate ≠ none ∧
    (validateForm witEnv emptyPayload).englishLevel ≠ none ∧
    (validateForm witEnv emptyPayload).age ≠ none ∧
    (validateForm witEnv emptyPayload).education ≠ none ∧
    (validateForm witEnv emptyPayload).experience ≠ none ∧
    (validateForm witEnv emptyPayload).visaType ≠ none ∧
    submit witEnv [] (.plain emptyPayload) =
      ⟨.failure 400 "Missing required fields. Please fill in all required fields.",
       [], 0, 0⟩ := by
  have h := missing_required_field_flagged witEnv [] emptyPayload
  exact ⟨h.1 rfl, h.2.1 rfl, h.2.2.1 rfl, h.2.2.2.1 rfl, h.2.2.2.2.1 rfl,
    h.2.2.2.2.2.1 rfl, h.2.2.2.2.2.2.1 rfl, h.2.2.2.2.2.2.2.1 rfl,
    h.2.2.2.2.2.2.2.2.1 rfl, h.2.2.2.2.2.2.2.2.2.1 rfl,
    h.2.2.2.2.2.2.2.2.2.2 (Or.inl rfl)⟩


/-- C3 counterexample: (i) with the stored email differing from the
submitted one only by letter case (stored uppercase), the second
submission is accepted and inserted rather than getting a 409; (ii)
with email and date matching exactly but the name field empty, the
reply is a 400, not the Conflict the claim promises regardless of
other fields. -/
theorem conflict_claim_counterexample :
    ((submit witEnv [storedU] (.plain p1)).response = .success none none ∧
     (submit witEnv [storedU] (.plain p1)).store = [storedU, mkStored p1]) ∧
    (submit witEnv [mkStored p1]
        (.plain { p1 with name := "", email := "JANE@x.com" })).response =
      .failure 400 "Missing required fields. Please fill in all required fields." := by
  decide

/-- C3 amended: if some stored booking's email is exactly the
lowercasing of the submitted email (same whitespace) with the same
preferredDate string, and the second request passes the server's
required-field, email-format and date checks, then submit replies 409
and inserts nothing — the remaining fields are arbitrary. -/
theorem conflict_on_exact_lowercased_match
    (env : Env) (store : List StoredBooking) (p : Payload) (b : StoredBooking)
    (hb : b ∈ store) (hbe : b.email = jsLower p.email)
    (hbd : b.preferredDate = p.preferredDate)
    (hreq : requiredFieldsPresent p = true)
    (hemail : emailRegexTest (jsTrim p.email) = true)
    (hdate : dateCheck env p.preferredDate = none) :
    submit env store (.plain p) =
      ⟨.failure 409 "You have already booked a consultation for this date with this email.",
       store, 1, 0⟩ := by
  have hv : validateSteps env p = none := by simp [validateSteps, hreq, hemail, hdate]
  cases hf : findOneBooking store p.preferredDate (jsLower p.email) with
  | none =>
    rw [findOneBooking, List.find?_eq_none] at hf
    have hcontra := hf b hb
    simp [hbe, hbd] at hcontra
  | some c => simp [submit, decodeStep, hv, hf]

/-- C3 amended witness: a concrete matching lowercased stored email
draws a 409 from a request differing in several other fields. -/
theorem conflict_on_exact_lowercased_match_witness :
    submit witEnv [mkStored p1]
        (.plain { p1 with name := "John Roe", email := "JANE@x.com", phone := "0987654321" }) =
      ⟨.failure 409 "You have already booked a consultation for this date with this email.",
       [mkStored p1], 1, 0⟩ :=
  conflict_on_exact_lowercased_match witEnv [mkStored p1]
    { p1 with name := "John Roe", email := "JANE@x.com", phone := "0987654321" }
    (mkStored p1) (List.mem_singleton.mpr rfl) (by decide) (by decide)
    (by decide) (by decide) (by decide)

/-- C2 counterexample: starting from the empty store, two sequential
submissions — the second differing from the first only by a leading
space in the email — leave the store with two bookings sharing the
same `(email, preferredDate)` pair. -/
theorem seq_invariant_counterexample :
    noDupPairs [] = true ∧
    noDupPairs (submitSeq [] [(witEnv, .plain p1), (witEnv, .plain p1ws)]) = false := by
  decide

/-- Appending one booking whose key clashes with no existing booking
preserves pairwise key distinctness. -/
lemma noDupPairs_append_singleton (l : List StoredBooking) (x : StoredBooking)
    (hl : noDupPairs l = true)
    (hx : ∀ b ∈ l, ¬ (b.email = x.email ∧ b.preferredDate = x.preferredDate)) :
    noDupPairs (l ++ [x]) = true := by
  induction l with
  | nil => simp [noDupPairs]
  | cons b rest ih =>
    simp only [noDupPairs, Bool.and_eq_true, List.all_eq_true] at hl
    simp only [List.cons_append, noDupPairs, Bool.and_eq_true, List.all_eq_true]
    refine ⟨?_, ih hl.2 (fun c hc => hx c (List.mem_cons_of_mem _ hc))⟩
    intro c hc
    rcases List.mem_append.mp hc with hcl | hcx
    · exact hl.1 c hcl
    · have hcx2 : c = x := by simpa using hcx
      subst hcx2
      have hbx := hx b (List.mem_cons_self _ _)
      by_cases h1 : c.email = b.email
      · by_cases h2 : c.preferredDate = b.preferredDate
        · exact absurd ⟨h1.symm, h2.symm⟩ hbx
        · simp [h1, h2]
      · simp [h1]

/-- The store after one submission is either unchanged or extended by
exactly the record built from a decoded payload that drew no conflict. -/
lemma submit_store_eq (env : Env) (store : List StoredBooking) (body : Envelope) :
    (submit env store body).store = store ∨
    ∃ p, decodeStep env body = .ok p ∧
         findOneBooking store p.preferredDate (jsLower p.email) = none ∧
         (submit env store body).store = store ++ [mkStored p] := by
  cases hdec : decodeStep env body with
  | error e =>
    cases e
    left
    simp [submit, hdec]
  | ok p =>
    cases hval : validateSteps env p with
    | some r =>
      cases r
      left
      simp [submit, hdec, hval]
    | none =>
      cases hfind : findOneBooking store p.preferredDate (jsLower p.email) with
      | some c =>
        left
        simp [submit, hdec, hval, hfind]
      | none =>
        right
        refine ⟨p, rfl, hfind, ?_⟩
        simp only [submit, hdec, hval, hfind]
        split
        · rfl
        · split <;> rfl

/-- One submission whose decoded payload has a lowercased email free
of surrounding whitespace preserves key distinctness of the store. -/
lemma noDupPairs_submit_preserved (env : Env) (store : List StoredBooking)
    (body : Envelope)
    (hstore : noDupPairs store = true)
    (hws : ∀ p, decodeStep env body = .ok p →
            jsTrim (jsLower p.email) = jsLower p.email) :
    noDupPairs (submit env store body).store = true := by
  rcases submit_store_eq env store body with h | ⟨p, hdec, hfind, h⟩
  · rw [h]; exact hstore
  · rw [h]
    apply noDupPairs_append_singleton _ _ hstore
    intro b hb hmatch
    rw [findOneBooking, List.find?_eq_none] at hfind
    have hb2 := hfind b hb
    have he : (mkStored p).email = jsLower p.email := hws p hdec
    have hd : (mkStored p).preferredDate = p.preferredDate := rfl
    rw [he] at hmatch
    rw [hd] at hmatch
    simp [hmatch.1, hmatch.2] at hb2

/-- C2 amended: under sequential execution, every sequence of
submissions whose decoded emails carry no surrounding whitespace after
lowercasing preserves the no-duplicate-`(email, preferredDate)`-pair
invariant; with surrounding whitespace the invariant is breakable (see
the counterexample). -/
theorem noDupPairs_preserved_sequential
    (seq : List (Env × Envelope)) (store : List StoredBooking)
    (hstore : noDupPairs store = true)
    (hws : ∀ eb ∈ seq, ∀ p, decodeStep eb.1 eb.2 = .ok p →
             jsTrim (jsLower p.email) = jsLower p.email) :
    noDupPairs (submitSeq store seq) = true := by
  induction seq generalizing store with
  | nil => simpa [submitSeq]
  | cons eb rest ih =>
    cases eb with
    | mk env body =>
      simp only [submitSeq]
      exact ih (submit env store body).store
        (noDupPairs_submit_preserved env store body hstore
          (fun p hp => hws (env, body) (List.mem_cons_self _ _) p hp))
        (fun eb2 h2 => hws eb2 (List.mem_cons_of_mem _ h2))

/-- C2 amended witness: a concrete whitespace-free two-submission
sequence (the second drawing a conflict) keeps the invariant. -/
theorem noDupPairs_preserved_sequential_witness :
    noDupPairs (submitSeq []
      [(witEnv, .plain p1), (witEnv, .plain { p1 with email := "JANE@x.com" })]) = true :=
  noDupPairs_preserved_sequential
    [(witEnv, .plain p1), (witEnv, .plain { p1 with email := "JANE@x.com" })] [] rfl
    (by
      intro eb heb p hp
      simp only [List.mem_cons, List.not_mem_nil, or_false] at heb
      rcases heb with rfl | rfl <;>
        (simp only [decodeStep, Except.ok.injEq] at hp
         subst hp
         decide))

/-- C10: the conflict query matches on the exact preferredDate string
and the lowercased-but-untrimmed email while the insert stores the
trimmed email, so (i) a second submission whose email has a leading
space is accepted and stored as an exact duplicate `(email,
preferredDate)` pair, and (ii) a second submission writing the same
calendar day as a different string is accepted as a second booking for
that day. -/
theorem conflict_check_normalization_mismatch :
    ((submit witEnv [mkStored p1] (.plain p1ws)).response = .success none none ∧
     (submit witEnv [mkStored p1] (.plain p1ws)).store = [mkStored p1, mkStored p1ws] ∧
     (mkStored p1ws).email = (mkStored p1).email ∧
     (mkStored p1ws).preferredDate = (mkStored p1).preferredDate) ∧
    ((submit witEnv [mkStored p1] (.plain p1alt)).response = .success none none ∧
     (submit witEnv [mkStored p1] (.plain p1alt)).store = [mkStored p1, mkStored p1alt] ∧
     (mkStored p1alt).email = (mkStored p1).email ∧
     (witEnv.jsParseDate (mkStored p1alt).preferredDate).map DateTime.day =
       (witEnv.jsParseDate (mkStored p1).preferredDate).map DateTime.day ∧
     (mkStored p1alt).preferredDate ≠ (mkStored p1).preferredDate) := by
  decide

end EasyGo
